import Mathlib

/-!
Shallow embedding of the signal syscalls and the user-stack layout of the
asynclear kernel core (crates/kernel/src/syscall/signal.rs,
crates/kernel/src/thread/mod.rs), together with theorems settling the spec
claims about them.

The `defines` crate (signal numbers, signal sets, errno codes, config
constants, trap contexts) and the `crate::signal` module (`SignalContext`,
`SigprocmaskHow`) are not part of the provided sources; those data types are
modelled from the spec, as marked on each definition. The three syscall
bodies themselves are translated line-by-line from `signal.rs`, and the
stack-address arithmetic from `thread/mod.rs`.
-/

namespace Asynclear

/-- Modelled from the spec: error codes returned by these syscalls
(`defines::error` is not under src/). `EINVAL` and `EFAULT` are the POSIX
codes; `BREAK` is the kernel's distinguished broken-boundary error returned
by `sys_rt_sigreturn` when the saved signal context is invalid. -/
inductive Errno
  | EINVAL
  | EFAULT
  | BREAK
deriving DecidableEq, Repr

/-- Outcome of a syscall in the embedding: `ok v` for `Ok(v)`, `err e` for
`Err(e)`, and `stubbed` for reaching the explicit `todo!` stub (which
diverges instead of returning). -/
inductive SysOutcome
  | ok (v : Nat)
  | err (e : Errno)
  | stubbed
deriving DecidableEq, Repr

/-- Whether a syscall outcome is a success (`Ok(_)`). -/
def SysOutcome.isOk : SysOutcome → Bool
  | .ok _ => true
  | _ => false

/-- Modelled from the spec: supported signals form "the fixed set of signal
numbers" (`defines::signal::Signal` is not under src/). We use the standard
Linux numbering 1..=31; `SIGKILL = 9` and `SIGSTOP = 19` are among them. -/
def signalSupported (n : Nat) : Bool := 1 ≤ n && n ≤ 31

/-- A supported signal: a signal number together with the fact that it is
supported. -/
def Signal : Type := { n : Nat // signalSupported n = true }

instance : DecidableEq Signal := Subtype.instDecidableEq

/-- `Signal::try_from(signum as u8)`: the Rust code first truncates the
`usize` argument to `u8` (mod 256) and then checks it names a supported
signal. -/
def Signal.tryFrom (signum : Nat) : Option Signal :=
  if h : signalSupported (signum % 256) = true then some ⟨signum % 256, h⟩ else none

def SIGKILL : Signal := ⟨9, by decide⟩

def SIGSTOP : Signal := ⟨19, by decide⟩

/-- Modelled from the spec: "fixed-width bit set of signal numbers"
(`defines::signal::KSignalSet` is not under src/). A 64-bit set is modelled
as the set of its set bits; the bitflags operations `insert`, `remove` and
assignment used by the code are union, set-difference and replacement. -/
abbrev KSignalSet : Type := Finset (Fin 64)

/-- `SIGSET_SIZE_BYTES`: the kernel's supported signal-mask width in bytes.
Modelled from the spec: a 64-bit mask is 8 bytes. -/
def SIGSET_SIZE_BYTES : Nat := 8

/-- Modelled from the spec: a signal disposition — "handler address/ignore/
default, flags, restorer address" (`defines::signal::KSignalAction` is not
under src/). The one flag the code inspects, `SA_RESTORER`, is kept as a
boolean; the remaining flag bits are kept as a number. -/
structure KSignalAction where
  handler : Nat
  sa_restorer : Bool
  other_flags : Nat
  mask : Finset (Fin 64)
  restorer : Nat
deriving DecidableEq

/-- The process-wide signal-disposition table: one action per supported
signal. -/
def SignalTable : Type := Signal → KSignalAction

/-- `inner.signal_handlers.action_mut(signal).clone_from(&act)`: replace the
disposition of one signal, leaving all others unchanged. -/
def SignalTable.setAction (t : SignalTable) (s : Signal) (a : KSignalAction) : SignalTable :=
  fun s2 => if s2 = s then a else t s2

/-- A user pointer carrying a value of type `α`, as seen through the
user-pointer validation library: null, non-null but failing validation
(`check_ptr` returns `EFAULT`), or valid with the pointed-to value. -/
inductive Ptr (α : Type)
  | null
  | invalid
  | valid (value : α)
deriving DecidableEq

/-- An output user pointer (write-only from the kernel's view): null,
non-null but failing validation, or valid. -/
inductive UPtr
  | null
  | invalid
  | valid
deriving DecidableEq, Repr

/-- Result of `sys_rt_sigaction`: the syscall outcome, the process's
signal-disposition table afterwards, and what (if anything) was written
through `old_act`. Writes through `old_act` happen before the `act` phase,
so they persist even when that phase errors or hits the stub. -/
structure SigactionResult where
  result : SysOutcome
  handlers : SignalTable
  old_act_written : Option KSignalAction

/-- `sys_rt_sigaction(signum, act, old_act)` from signal.rs:23-67.
Order of operations, as in the source: convert `signum` (EINVAL on
failure), reject SIGKILL/SIGSTOP (EINVAL), then if `old_act` is non-null
validate it (EFAULT) and copy the current disposition out, then if `act`
is non-null validate it (EFAULT), require `SA_RESTORER` (the missing
trampoline path is an explicit `todo!` stub), and install the new action. -/
def sys_rt_sigaction (signum : Nat) (act : Ptr KSignalAction) (old_act : UPtr)
    (handlers : SignalTable) : SigactionResult :=
  match Signal.tryFrom signum with
  | none => ⟨.err .EINVAL, handlers, none⟩
  | some signal =>
    if signal = SIGKILL ∨ signal = SIGSTOP then
      ⟨.err .EINVAL, handlers, none⟩
    else if old_act = .invalid then
      ⟨.err .EFAULT, handlers, none⟩
    else
      let written : Option KSignalAction :=
        if old_act = .valid then some (handlers signal) else none
      match act with
      | .null => ⟨.ok 0, handlers, written⟩
      | .invalid => ⟨.err .EFAULT, handlers, written⟩
      | .valid a =>
        if a.sa_restorer then
          ⟨.ok 0, handlers.setAction signal a, written⟩
        else
          ⟨.stubbed, handlers, written⟩

/-- Modelled from the spec: the three recognized `how` codes of
`sys_rt_sigprocmask` (`crate::signal::SigprocmaskHow` is not under src/). -/
inductive SigprocmaskHow
  | SIG_BLOCK
  | SIG_UNBLOCK
  | SIG_SETMASK
deriving DecidableEq, Repr

/-- Modelled from the spec: `SigprocmaskHow::try_from` with the standard
numeric codes block = 0, unblock = 1, set-absolute = 2; anything else is
unrecognized. -/
def SigprocmaskHow.tryFrom (n : Nat) : Option SigprocmaskHow :=
  match n with
  | 0 => some .SIG_BLOCK
  | 1 => some .SIG_UNBLOCK
  | 2 => some .SIG_SETMASK
  | _ => none

/-- Result of `sys_rt_sigprocmask`: the syscall outcome, the calling
thread's signal mask afterwards, and what (if anything) was written through
`old_set`. The write through `old_set` happens before `how` is parsed, so
it persists even when `how` is rejected. -/
structure SigprocmaskResult where
  result : SysOutcome
  signal_mask : KSignalSet
  old_set_written : Option KSignalSet
deriving DecidableEq

/-- `sys_rt_sigprocmask(how, set, old_set, set_size)` from signal.rs:80-120.
Order of operations, as in the source: reject `set_size > SIGSET_SIZE_BYTES`
(EINVAL), then if `old_set` is non-null validate it (EFAULT) and write the
current mask out, then parse `how` (EINVAL if unrecognized), then if `set`
is non-null validate it (EFAULT) and apply it to the mask per `how`:
block = union, unblock = set-difference, set-absolute = replace. -/
def sys_rt_sigprocmask (how : Nat) (set : Ptr KSignalSet) (old_set : UPtr)
    (set_size : Nat) (signal_mask : KSignalSet) : SigprocmaskResult :=
  if set_size > SIGSET_SIZE_BYTES then
    ⟨.err .EINVAL, signal_mask, none⟩
  else if old_set = .invalid then
    ⟨.err .EFAULT, signal_mask, none⟩
  else
    let written : Option KSignalSet :=
      if old_set = .valid then some signal_mask else none
    match SigprocmaskHow.tryFrom how with
    | none => ⟨.err .EINVAL, signal_mask, written⟩
    | some h =>
      match set with
      | .null => ⟨.ok 0, signal_mask, written⟩
      | .invalid => ⟨.err .EFAULT, signal_mask, written⟩
      | .valid s =>
        match h with
        | .SIG_BLOCK => ⟨.ok 0, signal_mask ∪ s, written⟩
        | .SIG_UNBLOCK => ⟨.ok 0, signal_mask \ s, written⟩
        | .SIG_SETMASK => ⟨.ok 0, s, written⟩

/-- Modelled from the spec: "machine register snapshot" — the thread's saved
user-mode execution state (`defines::trap_context::TrapContext` is not under
src/): general registers and the user program counter. The stack pointer is
general register x2, per the RISC-V ABI. -/
structure TrapContext where
  user_regs : List Nat
  sepc : Nat
deriving DecidableEq, Repr

/-- `trap_context.sp()`: read the saved stack pointer (register x2). -/
def TrapContext.sp (c : TrapContext) : Nat := c.user_regs.getD 2 0

/-- Modelled from the spec: the `SignalContext` saved on the user stack by
the delivery path and read back by `sys_rt_sigreturn` (`crate::signal` is
not under src/): the pre-signal mask and trap context to restore. -/
structure SignalContext where
  old_mask : KSignalSet
  old_trap_context : TrapContext
deriving DecidableEq

/-- The state of the current thread that `sys_rt_sigreturn` touches: its
signal mask and its saved trap context. -/
structure ThreadSignalState where
  signal_mask : KSignalSet
  trap_context : TrapContext
deriving DecidableEq

/-- Result of `sys_rt_sigreturn`: the syscall outcome, the thread's signal
mask and trap context afterwards, and `process_exit = some code` when the
owning process was terminated via `exit_process` with that exit code. -/
structure SigreturnResult where
  result : SysOutcome
  signal_mask : KSignalSet
  trap_context : TrapContext
  process_exit : Option Int
deriving DecidableEq

/-- `sys_rt_sigreturn()` from signal.rs:122-138. Reads the saved stack
pointer from the current thread's trap context; `readSignalContext`
abstracts the user-pointer validation library: `none` when the address
fails validation as a readable `SignalContext`, `some ctx` with the
pointed-to context otherwise. On failure the owning process is terminated
with exit code -10 and the syscall returns the BREAK error; on success the
thread's mask and trap context are replaced by the saved values. -/
def sys_rt_sigreturn (readSignalContext : Nat → Option SignalContext)
    (st : ThreadSignalState) : SigreturnResult :=
  let sp := st.trap_context.sp
  match readSignalContext sp with
  | none => ⟨.err .BREAK, st.signal_mask, st.trap_context, some (-10)⟩
  | some ctx => ⟨.ok 0, ctx.old_mask, ctx.old_trap_context, none⟩

/-- `Thread::user_stack_high_addr(tid)` from thread/mod.rs:66-69:
`LOW_ADDRESS_END - tid * (USER_STACK_SIZE + PAGE_SIZE)`. The config
constants live in the `defines` crate, which is not under src/, so they are
passed as parameters and the theorems quantify over them. -/
def user_stack_high_addr (LOW_ADDRESS_END USER_STACK_SIZE PAGE_SIZE tid : Nat) : Nat :=
  LOW_ADDRESS_END - tid * (USER_STACK_SIZE + PAGE_SIZE)

/-- `Thread::user_stack_low_addr(tid)` from thread/mod.rs:61-63: the high
address minus the user-stack size. -/
def user_stack_low_addr (LOW_ADDRESS_END USER_STACK_SIZE PAGE_SIZE tid : Nat) : Nat :=
  user_stack_high_addr LOW_ADDRESS_END USER_STACK_SIZE PAGE_SIZE tid - USER_STACK_SIZE

/-- C1: if the saved stack pointer read from the current thread's trap
context fails user-address validation for a `SignalContext`, then
`sys_rt_sigreturn` terminates the owning process with the non-zero
distinguished exit code -10, returns the distinguished broken-boundary
error `BREAK`, and leaves the thread's signal mask and trap context
unmodified. -/
theorem sigreturn_invalid_sp_kills_process
    (readSignalContext : Nat → Option SignalContext) (st : ThreadSignalState)
    (h : readSignalContext st.trap_context.sp = none) :
    (sys_rt_sigreturn readSignalContext st).result = .err .BREAK ∧
    (sys_rt_sigreturn readSignalContext st).process_exit = some (-10) ∧
    (-10 : Int) ≠ 0 ∧
    (sys_rt_sigreturn readSignalContext st).signal_mask = st.signal_mask ∧
    (sys_rt_sigreturn readSignalContext st).trap_context = st.trap_context := by
  simp [sys_rt_sigreturn, h]

/-- Witness for C1 at a concrete thread state where no user address
validates. -/
theorem sigreturn_invalid_sp_kills_process_witness :
    (sys_rt_sigreturn (fun _ => none) ⟨∅, ⟨[0, 0, 300], 5⟩⟩).result = .err .BREAK ∧
    (sys_rt_sigreturn (fun _ => none) ⟨∅, ⟨[0, 0, 300], 5⟩⟩).process_exit = some (-10) ∧
    (-10 : Int) ≠ 0 ∧
    (sys_rt_sigreturn (fun _ => none) ⟨∅, ⟨[0, 0, 300], 5⟩⟩).signal_mask = (∅ : KSignalSet) ∧
    (sys_rt_sigreturn (fun _ => none) ⟨∅, ⟨[0, 0, 300], 5⟩⟩).trap_context = ⟨[0, 0, 300], 5⟩ :=
  sigreturn_invalid_sp_kills_process (fun _ => none) ⟨∅, ⟨[0, 0, 300], 5⟩⟩ rfl

/-- C2: if the saved stack pointer validates as a readable `SignalContext`,
then `sys_rt_sigreturn` returns success (0), sets the thread's signal mask
exactly to the saved `old_mask`, and sets its trap context exactly to the
saved `old_trap_context`. -/
theorem sigreturn_valid_restores
    (readSignalContext : Nat → Option SignalContext) (st : ThreadSignalState)
    (ctx : SignalContext)
    (h : readSignalContext st.trap_context.sp = some ctx) :
    (sys_rt_sigreturn readSignalContext st).result = .ok 0 ∧
    (sys_rt_sigreturn readSignalContext st).signal_mask = ctx.old_mask ∧
    (sys_rt_sigreturn readSignalContext st).trap_context = ctx.old_trap_context := by
  simp [sys_rt_sigreturn, h]

/-- Witness for C2 at a concrete thread state and saved context. -/
theorem sigreturn_valid_restores_witness :
    (sys_rt_sigreturn (fun _ => some ⟨{3}, ⟨[1, 2, 3], 7⟩⟩) ⟨∅, ⟨[0, 0, 300], 5⟩⟩).result = .ok 0 ∧
    (sys_rt_sigreturn (fun _ => some ⟨{3}, ⟨[1, 2, 3], 7⟩⟩) ⟨∅, ⟨[0, 0, 300], 5⟩⟩).signal_mask
      = ({3} : KSignalSet) ∧
    (sys_rt_sigreturn (fun _ => some ⟨{3}, ⟨[1, 2, 3], 7⟩⟩) ⟨∅, ⟨[0, 0, 300], 5⟩⟩).trap_context
      = ⟨[1, 2, 3], 7⟩ :=
  sigreturn_valid_restores (fun _ => some ⟨{3}, ⟨[1, 2, 3], 7⟩⟩) ⟨∅, ⟨[0, 0, 300], 5⟩⟩
    ⟨{3}, ⟨[1, 2, 3], 7⟩⟩ rfl

/-- C3: `sys_rt_sigaction` with a signum mapping to SIGKILL or SIGSTOP, or
not mapping to any supported signal, returns EINVAL regardless of the `act`
and `old_act` arguments; the signal-disposition table is unchanged and
nothing is written through `old_act`. -/
theorem sigaction_bad_signum_einval (signum : Nat) (act : Ptr KSignalAction)
    (old_act : UPtr) (handlers : SignalTable)
    (h : Signal.tryFrom signum = none ∨ Signal.tryFrom signum = some SIGKILL ∨
         Signal.tryFrom signum = some SIGSTOP) :
    (sys_rt_sigaction signum act old_act handlers).result = .err .EINVAL ∧
    (sys_rt_sigaction signum act old_act handlers).handlers = handlers ∧
    (sys_rt_sigaction signum act old_act handlers).old_act_written = none := by
  rcases h with h | h | h <;> simp [sys_rt_sigaction, h]

/-- Witness for C3 at signum = 9 (SIGKILL), with non-null pointers and a
concrete table. -/
theorem sigaction_bad_signum_einval_witness :
    (sys_rt_sigaction 9 (.valid ⟨4096, true, 0, ∅, 8192⟩) .valid
        (fun _ => ⟨0, false, 0, ∅, 0⟩)).result = .err .EINVAL ∧
    (sys_rt_sigaction 9 (.valid ⟨4096, true, 0, ∅, 8192⟩) .valid
        (fun _ => ⟨0, false, 0, ∅, 0⟩)).handlers = (fun _ => ⟨0, false, 0, ∅, 0⟩) ∧
    (sys_rt_sigaction 9 (.valid ⟨4096, true, 0, ∅, 8192⟩) .valid
        (fun _ => ⟨0, false, 0, ∅, 0⟩)).old_act_written = none :=
  sigaction_bad_signum_einval 9 (.valid ⟨4096, true, 0, ∅, 8192⟩) .valid
    (fun _ => ⟨0, false, 0, ∅, 0⟩) (Or.inr (Or.inl (by decide)))

/-- C4: `sys_rt_sigaction` with a non-null, valid new-action pointer whose
flags lack SA_RESTORER never stores the new action: whatever the other
arguments, the signal-disposition table is unchanged and the call does not
return success (it errors out earlier or hits the explicit `todo!` stub). -/
theorem sigaction_no_restorer_never_stored (signum : Nat) (a : KSignalAction)
    (old_act : UPtr) (handlers : SignalTable) (h : a.sa_restorer = false) :
    (sys_rt_sigaction signum (.valid a) old_act handlers).handlers = handlers ∧
    (sys_rt_sigaction signum (.valid a) old_act handlers).result.isOk = false := by
  unfold sys_rt_sigaction
  cases htf : Signal.tryFrom signum with
  | none => simp [SysOutcome.isOk]
  | some s =>
    by_cases hks : s = SIGKILL ∨ s = SIGSTOP
    · simp [hks, SysOutcome.isOk]
    · by_cases ho : old_act = .invalid
      · simp [hks, ho, SysOutcome.isOk]
      · simp [hks, ho, h, SysOutcome.isOk]

/-- Witness for C4 at signum = 1 with a concrete restorer-less action that
reaches the stub. -/
theorem sigaction_no_restorer_never_stored_witness :
    (sys_rt_sigaction 1 (.valid ⟨4096, false, 0, ∅, 8192⟩) .null
        (fun _ => ⟨0, false, 0, ∅, 0⟩)).handlers = (fun _ => ⟨0, false, 0, ∅, 0⟩) ∧
    (sys_rt_sigaction 1 (.valid ⟨4096, false, 0, ∅, 8192⟩) .null
        (fun _ => ⟨0, false, 0, ∅, 0⟩)).result.isOk = false :=
  sigaction_no_restorer_never_stored 1 ⟨4096, false, 0, ∅, 8192⟩ .null
    (fun _ => ⟨0, false, 0, ∅, 0⟩) rfl

/-- C5 counterexample: with starting mask M = {0} and set S = {0}, blocking
S and then unblocking S does not return the mask to M — both calls succeed
but the final mask is empty, because unblock removes signals that were
already blocked before the block call. -/
theorem sigprocmask_block_unblock_not_inverse :
    (sys_rt_sigprocmask 0 (.valid {0}) .null 8 ({0} : KSignalSet)).result = .ok 0 ∧
    (sys_rt_sigprocmask 1 (.valid {0}) .null 8
        (sys_rt_sigprocmask 0 (.valid {0}) .null 8 ({0} : KSignalSet)).signal_mask).result
      = .ok 0 ∧
    (sys_rt_sigprocmask 1 (.valid {0}) .null 8
        (sys_rt_sigprocmask 0 (.valid {0}) .null 8 ({0} : KSignalSet)).signal_mask).signal_mask
      ≠ ({0} : KSignalSet) := by
  decide

/-- C5 (amended): for every starting mask M and set S, blocking S and then
unblocking S succeeds and leaves the mask exactly M \ S — which equals M
precisely when no signal of S was already blocked in M. -/
theorem sigprocmask_block_then_unblock (M S : KSignalSet) :
    (sys_rt_sigprocmask 0 (.valid S) .null SIGSET_SIZE_BYTES M).result = .ok 0 ∧
    (sys_rt_sigprocmask 1 (.valid S) .null SIGSET_SIZE_BYTES
        (sys_rt_sigprocmask 0 (.valid S) .null SIGSET_SIZE_BYTES M).signal_mask).result
      = .ok 0 ∧
    (sys_rt_sigprocmask 1 (.valid S) .null SIGSET_SIZE_BYTES
        (sys_rt_sigprocmask 0 (.valid S) .null SIGSET_SIZE_BYTES M).signal_mask).signal_mask
      = M \ S := by
  refine ⟨rfl, rfl, ?_⟩
  show (M ∪ S) \ S = M \ S
  ext a
  simp only [Finset.mem_sdiff, Finset.mem_union]
  tauto

/-- C6: a successful `sys_rt_sigprocmask` with how = SIG_SETMASK (2) and a
valid new-mask pointer to S leaves the thread's signal mask exactly S,
regardless of the prior mask. -/
theorem sigprocmask_setmask_absolute (S mask : KSignalSet) (old_set : UPtr) (set_size : Nat)
    (h : (sys_rt_sigprocmask 2 (.valid S) old_set set_size mask).result = .ok 0) :
    (sys_rt_sigprocmask 2 (.valid S) old_set set_size mask).signal_mask = S := by
  by_cases hs : set_size > SIGSET_SIZE_BYTES
  · simp [sys_rt_sigprocmask, hs] at h
  · by_cases ho : old_set = .invalid
    · simp [sys_rt_sigprocmask, hs, ho] at h
    · simp [sys_rt_sigprocmask, hs, ho, SigprocmaskHow.tryFrom]

/-- Witness for C6 at a concrete prior mask {2, 3} and new mask {1}. -/
theorem sigprocmask_setmask_absolute_witness :
    (sys_rt_sigprocmask 2 (.valid {1}) .null 8 ({2, 3} : KSignalSet)).signal_mask
      = ({1} : KSignalSet) :=
  sigprocmask_setmask_absolute {1} {2, 3} .null 8 (by decide)

/-- C7: `sys_rt_sigprocmask` with `set_size` strictly greater than
SIGSET_SIZE_BYTES returns EINVAL regardless of the other arguments; the
thread's signal mask is unchanged and nothing is written through
`old_set`. -/
theorem sigprocmask_oversized_einval (how : Nat) (set : Ptr KSignalSet) (old_set : UPtr)
    (set_size : Nat) (mask : KSignalSet) (h : set_size > SIGSET_SIZE_BYTES) :
    (sys_rt_sigprocmask how set old_set set_size mask).result = .err .EINVAL ∧
    (sys_rt_sigprocmask how set old_set set_size mask).signal_mask = mask ∧
    (sys_rt_sigprocmask how set old_set set_size mask).old_set_written = none := by
  simp [sys_rt_sigprocmask, h]

/-- Witness for C7 at set_size = 9 with non-null pointers. -/
theorem sigprocmask_oversized_einval_witness :
    (sys_rt_sigprocmask 0 (.valid {1}) .valid 9 ({2} : KSignalSet)).result = .err .EINVAL ∧
    (sys_rt_sigprocmask 0 (.valid {1}) .valid 9 ({2} : KSignalSet)).signal_mask
      = ({2} : KSignalSet) ∧
    (sys_rt_sigprocmask 0 (.valid {1}) .valid 9 ({2} : KSignalSet)).old_set_written = none :=
  sigprocmask_oversized_einval 0 (.valid {1}) .valid 9 {2} (by decide)

/-- C8: round-trip of signal actions. Installing an action A (with the
SA_RESTORER flag set) for a supported signal other than SIGKILL/SIGSTOP
succeeds, and a subsequent `sys_rt_sigaction` for the same signum with a
valid old-action-out pointer writes exactly A out, whatever its own `act`
argument is. -/
theorem sigaction_round_trip (signum : Nat) (s : Signal) (a : KSignalAction)
    (act2 : Ptr KSignalAction) (old1 : UPtr) (handlers : SignalTable)
    (hs : Signal.tryFrom signum = some s) (hk : s ≠ SIGKILL) (hp : s ≠ SIGSTOP)
    (hr : a.sa_restorer = true) (ho1 : old1 ≠ .invalid) :
    (sys_rt_sigaction signum (.valid a) old1 handlers).result = .ok 0 ∧
    (sys_rt_sigaction signum act2 .valid
        (sys_rt_sigaction signum (.valid a) old1 handlers).handlers).old_act_written
      = some a := by
  have h1 : (sys_rt_sigaction signum (.valid a) old1 handlers).result = .ok 0 ∧
      (sys_rt_sigaction signum (.valid a) old1 handlers).handlers
        = handlers.setAction s a := by
    cases old1 with
    | null => simp [sys_rt_sigaction, hs, hk, hp, hr]
    | invalid => exact absurd rfl ho1
    | valid => simp [sys_rt_sigaction, hs, hk, hp, hr]
  refine ⟨h1.1, ?_⟩
  rw [h1.2]
  have hsa : (handlers.setAction s a) s = a := by
    simp [SignalTable.setAction]
  cases act2 with
  | null => simp [sys_rt_sigaction, hs, hk, hp, hsa]
  | invalid => simp [sys_rt_sigaction, hs, hk, hp, hsa]
  | valid a2 =>
    by_cases h2 : a2.sa_restorer <;> simp [sys_rt_sigaction, hs, hk, hp, hsa, h2]

/-- Witness for C8 at signum = 5 with a concrete action and table. -/
theorem sigaction_round_trip_witness :
    (sys_rt_sigaction 5 (.valid ⟨4096, true, 2, {1}, 8192⟩) .null
        (fun _ => ⟨0, false, 0, ∅, 0⟩)).result = .ok 0 ∧
    (sys_rt_sigaction 5 .null .valid
        (sys_rt_sigaction 5 (.valid ⟨4096, true, 2, {1}, 8192⟩) .null
          (fun _ => ⟨0, false, 0, ∅, 0⟩)).handlers).old_act_written
      = some ⟨4096, true, 2, {1}, 8192⟩ :=
  sigaction_round_trip 5 ⟨5, by decide⟩ ⟨4096, true, 2, {1}, 8192⟩ .null .null
    (fun _ => ⟨0, false, 0, ∅, 0⟩) (by decide) (by decide) (by decide) rfl (by decide)

/-- The regions of two distinct thread ids are separated by at least one
page: the high end of the lower region (larger tid) is at least one
PAGE_SIZE below the low end of the higher region (smaller tid). -/
theorem user_stack_gap (L S P t1 t2 : Nat) (h : t1 < t2)
    (hfit : t2 * (S + P) + S ≤ L) :
    user_stack_high_addr L S P t2 + P ≤ user_stack_low_addr L S P t1 := by
  unfold user_stack_low_addr user_stack_high_addr
  have h1 : t1 * (S + P) + (S + P) ≤ t2 * (S + P) := by
    have h2 : t1 + 1 ≤ t2 := h
    calc t1 * (S + P) + (S + P) = (t1 + 1) * (S + P) := by ring
    _ ≤ t2 * (S + P) := Nat.mul_le_mul_right _ h2
  omega

/-- C9: for distinct thread ids whose stack arithmetic does not underflow,
the user-stack regions [high - USER_STACK_SIZE, high) are disjoint, and the
region of the larger tid ends at least one PAGE_SIZE (the unmapped guard
page) below the start of the region of the smaller tid. -/
theorem user_stacks_disjoint (L S P t1 t2 : Nat) (hne : t1 ≠ t2)
    (hfit : max t1 t2 * (S + P) + S ≤ L) :
    user_stack_high_addr L S P (max t1 t2) + P ≤ user_stack_low_addr L S P (min t1 t2) ∧
    Disjoint
      (Finset.Ico (user_stack_low_addr L S P t1) (user_stack_high_addr L S P t1))
      (Finset.Ico (user_stack_low_addr L S P t2) (user_stack_high_addr L S P t2)) := by
  rcases Nat.lt_or_ge t1 t2 with hlt | hge
  · have hmax : max t1 t2 = t2 := Nat.max_eq_right (Nat.le_of_lt hlt)
    have hmin : min t1 t2 = t1 := Nat.min_eq_left (Nat.le_of_lt hlt)
    rw [hmax, hmin]
    rw [hmax] at hfit
    have hgap := user_stack_gap L S P t1 t2 hlt hfit
    refine ⟨hgap, Finset.disjoint_left.mpr ?_⟩
    intro x hx1 hx2
    rw [Finset.mem_Ico] at hx1 hx2
    omega
  · have hlt : t2 < t1 := Nat.lt_of_le_of_ne hge (fun e => hne e.symm)
    have hmax : max t1 t2 = t1 := Nat.max_eq_left (Nat.le_of_lt hlt)
    have hmin : min t1 t2 = t2 := Nat.min_eq_right (Nat.le_of_lt hlt)
    rw [hmax, hmin]
    rw [hmax] at hfit
    have hgap := user_stack_gap L S P t2 t1 hlt hfit
    refine ⟨hgap, Finset.disjoint_left.mpr ?_⟩
    intro x hx1 hx2
    rw [Finset.mem_Ico] at hx1 hx2
    omega

/-- Witness for C9 at concrete layout constants and tids 1 and 3. -/
theorem user_stacks_disjoint_witness :
    user_stack_high_addr 1000000 1000 100 (max 3 1) + 100
      ≤ user_stack_low_addr 1000000 1000 100 (min 3 1) ∧
    Disjoint
      (Finset.Ico (user_stack_low_addr 1000000 1000 100 3)
        (user_stack_high_addr 1000000 1000 100 3))
      (Finset.Ico (user_stack_low_addr 1000000 1000 100 1)
        (user_stack_high_addr 1000000 1000 100 1)) :=
  user_stacks_disjoint 1000000 1000 100 3 1 (by decide) (by norm_num)

/-- C10 counterexample: with an in-range `set_size` and an unrecognized
`how`, a call whose old-mask-out pointer is non-null but fails validation
returns EFAULT, not EINVAL, so the claim as stated (EINVAL for every such
call) fails. -/
theorem sigprocmask_bad_how_not_always_einval :
    (sys_rt_sigprocmask 5 .null .invalid 8 (∅ : KSignalSet)).result = .err .EFAULT ∧
    (sys_rt_sigprocmask 5 .null .invalid 8 (∅ : KSignalSet)).result ≠ .err .EINVAL := by
  decide

/-- C10 (amended): with `set_size` within the supported width, an
unrecognized `how`, and an old-mask-out pointer that is null or validates
as writable, the call returns EINVAL and leaves the mask unchanged; if the
old-mask-out pointer was non-null and valid, the current mask was written
through it before the error was returned. -/
theorem sigprocmask_bad_how_einval (how : Nat) (set : Ptr KSignalSet) (old_set : UPtr)
    (set_size : Nat) (mask : KSignalSet)
    (hsz : set_size ≤ SIGSET_SIZE_BYTES) (hhow : SigprocmaskHow.tryFrom how = none)
    (ho : old_set ≠ .invalid) :
    (sys_rt_sigprocmask how set old_set set_size mask).result = .err .EINVAL ∧
    (sys_rt_sigprocmask how set old_set set_size mask).signal_mask = mask ∧
    (sys_rt_sigprocmask how set old_set set_size mask).old_set_written
      = (if old_set = .valid then some mask else none) := by
  have hsz2 : ¬ set_size > SIGSET_SIZE_BYTES := by omega
  simp [sys_rt_sigprocmask, hsz2, ho, hhow]

/-- Witness for C10's amended claim at how = 5 with a valid old-mask-out
pointer. -/
theorem sigprocmask_bad_how_einval_witness :
    (sys_rt_sigprocmask 5 .null .valid 8 ({2} : KSignalSet)).result = .err .EINVAL ∧
    (sys_rt_sigprocmask 5 .null .valid 8 ({2} : KSignalSet)).signal_mask
      = ({2} : KSignalSet) ∧
    (sys_rt_sigprocmask 5 .null .valid 8 ({2} : KSignalSet)).old_set_written
      = (if (UPtr.valid : UPtr) = .valid then some ({2} : KSignalSet) else none) :=
  sigprocmask_bad_how_einval 5 .null .valid 8 {2} (by decide) rfl (by decide)

end Asynclear
